import Mathlib

/-!
Verification development for the X11 windowing layer of the ClanLib SDK
(`Sources/Display/Platform/X11`): the atom cache (`x11_atoms.cpp`), the
per-window object (`x11_window.cpp`) and the per-thread message queue
(`display_message_queue_x11.cpp`).

The C++ units are shallowly embedded: each relevant member function becomes a
Lean function over an explicit state record, X server round trips become
explicit parameters (the value the server would have answered with), and
fallible paths (assertion failures, out-of-bounds vector accesses) are
modelled with `Option`/sum result types.  Machine integers stay `Int`: none of
the verified paths exercise overflow.
-/

namespace ClanX11

/-- A 2-D point with the same role as `clan::Point` (integer coordinates). -/
structure Point where
  x : Int
  y : Int
deriving DecidableEq, Repr

/-- A 2-D size with the same role as `clan::Size` (integer components). -/
structure Size where
  width  : Int
  height : Int
deriving DecidableEq, Repr

/-- Frame decoration thickness on each side, the role `clan::Rect` plays for
`X11Window::frame_extents` (left/right/top/bottom). -/
structure FrameExtents where
  left   : Int
  right  : Int
  top    : Int
  bottom : Int
deriving DecidableEq, Repr

/-- An X atom value; `0` stands for the X `None` atom. -/
abbrev Atom := Nat

/-- Names of X atoms.  The source keys its maps by `std::string`; the fixed
list `X11Atoms::_atoms_` plus arbitrary further names (reachable through
`X11Atoms::get_atom`) are modelled as one inductive, with `other n` standing
for any name outside the fixed list. -/
inductive AtomName where
  | WM_PROTOCOLS
  | WM_CLIENT_MACHINE
  | WM_DELETE_WINDOW
  | WM_STATE
  | CLIPBOARD
  | PRIMARY
  | _NET_SUPPORTED
  | _NET_SUPPORTING_WM_CHECK
  | _NET_FRAME_EXTENTS
  | _NET_REQUEST_FRAME_EXTENTS
  | _NET_WM_FULL_PLACEMENT
  | _NET_WM_FULLSCREEN_MONITORS
  | _NET_WM_NAME
  | _NET_WM_PID
  | _NET_WM_PING
  | _NET_WM_STATE
  | _NET_WM_STATE_HIDDEN
  | _NET_WM_STATE_FULLSCREEN
  | _NET_WM_STATE_MAXIMIZED_HORZ
  | _NET_WM_STATE_MAXIMIZED_VERT
  | _NET_WM_STATE_MODAL
  | _NET_WM_WINDOW_TYPE
  | _NET_WM_WINDOW_TYPE_DESKTOP
  | _NET_WM_WINDOW_TYPE_DOCK
  | _NET_WM_WINDOW_TYPE_TOOLBAR
  | _NET_WM_WINDOW_TYPE_MENU
  | _NET_WM_WINDOW_TYPE_UTILITY
  | _NET_WM_WINDOW_TYPE_SPLASH
  | _NET_WM_WINDOW_TYPE_DIALOG
  | _NET_WM_WINDOW_TYPE_DROPDOWN_MENU
  | _NET_WM_WINDOW_TYPE_POPUP_MENU
  | _NET_WM_WINDOW_TYPE_TOOLTIP
  | _NET_WM_WINDOW_TYPE_NOTIFICATION
  | _NET_WM_WINDOW_TYPE_COMBO
  | _NET_WM_WINDOW_TYPE_DND
  | _NET_WM_WINDOW_TYPE_NORMAL
  | other (n : Nat)
deriving DecidableEq, Repr

/-- The fixed, versioned list `X11Atoms::_atoms_` interned by
`X11Atoms::populate`. -/
def fixedAtomList : List AtomName :=
  [ .WM_PROTOCOLS, .WM_CLIENT_MACHINE, .WM_DELETE_WINDOW, .WM_STATE,
    .CLIPBOARD, .PRIMARY, ._NET_SUPPORTED, ._NET_SUPPORTING_WM_CHECK,
    ._NET_FRAME_EXTENTS, ._NET_REQUEST_FRAME_EXTENTS,
    ._NET_WM_FULL_PLACEMENT, ._NET_WM_FULLSCREEN_MONITORS, ._NET_WM_NAME,
    ._NET_WM_PID, ._NET_WM_PING, ._NET_WM_STATE, ._NET_WM_STATE_HIDDEN,
    ._NET_WM_STATE_FULLSCREEN, ._NET_WM_STATE_MAXIMIZED_HORZ,
    ._NET_WM_STATE_MAXIMIZED_VERT, ._NET_WM_STATE_MODAL,
    ._NET_WM_WINDOW_TYPE, ._NET_WM_WINDOW_TYPE_DESKTOP,
    ._NET_WM_WINDOW_TYPE_DOCK, ._NET_WM_WINDOW_TYPE_TOOLBAR,
    ._NET_WM_WINDOW_TYPE_MENU, ._NET_WM_WINDOW_TYPE_UTILITY,
    ._NET_WM_WINDOW_TYPE_SPLASH, ._NET_WM_WINDOW_TYPE_DIALOG,
    ._NET_WM_WINDOW_TYPE_DROPDOWN_MENU, ._NET_WM_WINDOW_TYPE_POPUP_MENU,
    ._NET_WM_WINDOW_TYPE_TOOLTIP, ._NET_WM_WINDOW_TYPE_NOTIFICATION,
    ._NET_WM_WINDOW_TYPE_COMBO, ._NET_WM_WINDOW_TYPE_DND,
    ._NET_WM_WINDOW_TYPE_NORMAL ]

/-- The `clan::X11Atoms` cache: `_map_` is the name-to-atom map (an atom value
of `0` models the X `None` atom: the name was looked up with
`only_if_exists = True` but the server has not interned it); `_net_` is the
subset of names confirmed present in the window manager's `_NET_SUPPORTED`
capability list. -/
structure X11Atoms where
  map : List (AtomName × Atom)
  net : List AtomName
deriving DecidableEq, Repr

namespace X11Atoms

/-- Embeds `X11Atoms::operator[]`.  The source asserts that the name is
present in `_map_` (`assert(iter != _map_.end())`); the `none` result models
that assertion failing (undefined behaviour with `NDEBUG`). -/
def opIndex (t : X11Atoms) (name : AtomName) : Option Atom :=
  (t.map.find? (fun p => p.1 = name)).map (fun p => p.2)

/-- Embeds `X11Atoms::exists`: the name is in `_map_` with a value distinct
from the `None` atom. -/
def atomExists (t : X11Atoms) (name : AtomName) : Bool :=
  match t.opIndex name with
  | some a => a ≠ 0
  | none => false

/-- Embeds `X11Atoms::is_hint_supported`: the name is recorded in the `_net_`
map built from the `_NET_SUPPORTED` capability property. -/
def is_hint_supported (t : X11Atoms) (name : AtomName) : Bool :=
  t.net.contains name

/-- Embeds `X11Atoms::check_net_wm_state(window, state_atoms)`.

`netWmStateProp` is the value the server holds for the window's
`_NET_WM_STATE` property: `none` models `get_property` returning `NULL`
(query failed), `some items` a successful read of `item_count` atoms
(possibly zero-length).

The outer `Option` models the assertions inside `X11Atoms::operator[]`:
the result is `none` when `_NET_WM_STATE` itself or one of the candidate
names was never put in `_map_`. -/
def check_net_wm_state (t : X11Atoms) (netWmStateProp : Option (List Atom))
    (state_atoms : List AtomName) : Option (List Bool) :=
  match t.opIndex ._NET_WM_STATE with
  | none => none
  | some netWmState =>
    if netWmState = 0 then
      some []
    else
      match netWmStateProp with
      | none => some []
      | some items =>
        state_atoms.mapM (fun elem =>
          match t.opIndex elem with
          | none => none
          | some state =>
            some (if state = 0 then false else items.contains state))

end X11Atoms

/-- Action codes of an EWMH `_NET_WM_STATE` client message
(`_NET_WM_STATE_REMOVE` / `_NET_WM_STATE_ADD` as defined at the top of
`x11_window.cpp`). -/
def NET_WM_STATE_REMOVE : Int := 0

/-- Action code `_NET_WM_STATE_ADD`. -/
def NET_WM_STATE_ADD : Int := 1

namespace X11Window

/-- Embeds `X11Window::is_maximized`.  The source reads
`auto ret = atoms.check_net_wm_state(handle.window, {HORZ, VERT});` and then
evaluates `ret[0]` and `ret[1]` with no size check; `none` models either the
`operator[]` assertion inside the query or an out-of-bounds
`std::vector::operator[]` access on `ret`. -/
def is_maximized (atoms : X11Atoms) (netWmStateProp : Option (List Atom)) :
    Option Bool :=
  match atoms.check_net_wm_state netWmStateProp
      [._NET_WM_STATE_MAXIMIZED_HORZ, ._NET_WM_STATE_MAXIMIZED_VERT] with
  | none => none
  | some ret =>
    match ret[0]?, ret[1]? with
    | some r0, some r1 => some (r0 && r1)
    | _, _ => none

/-- Embeds `X11Window::is_fullscreen`: unsupported hints yield `false`; the
query result is used only when it has exactly one entry. -/
def is_fullscreen (atoms : X11Atoms) (netWmStateProp : Option (List Atom)) :
    Option Bool :=
  if ¬ (atoms.is_hint_supported ._NET_WM_STATE
        && atoms.is_hint_supported ._NET_WM_STATE_FULLSCREEN) then
    some false
  else
    match atoms.check_net_wm_state netWmStateProp [._NET_WM_STATE_FULLSCREEN] with
    | none => none
    | some ret => some (if h : ret.length = 1 then ret.get ⟨0, by omega⟩ else false)

/-- Outcome of `X11Window::set_fullscreen`. -/
inductive SetFullscreenResult where
  /-- EWMH fullscreen hints not advertised: logged no-op. -/
  | unsupportedNoOp
  /-- Requested state already matches the observed state: logged no-op. -/
  | alreadyNoOp
  /-- A `_NET_WM_STATE` change request with this action code was sent via
  `X11Atoms::modify_net_wm_state`. -/
  | requested (action : Int)
  /-- The `assert(ret.size() != 0)` in the source failed (or, with `NDEBUG`,
  the subsequent `ret[0]` read out of bounds), or an `operator[]` assertion
  fired inside the query. -/
  | assertFail
deriving DecidableEq, Repr

/-- Embeds `X11Window::set_fullscreen(new_state)`. -/
def set_fullscreen (atoms : X11Atoms) (netWmStateProp : Option (List Atom))
    (new_state : Bool) : SetFullscreenResult :=
  if ¬ (atoms.is_hint_supported ._NET_WM_STATE
        && atoms.is_hint_supported ._NET_WM_STATE_FULLSCREEN) then
    .unsupportedNoOp
  else
    match atoms.check_net_wm_state netWmStateProp [._NET_WM_STATE_FULLSCREEN] with
    | none => .assertFail
    | some ret =>
      match ret[0]? with
      | none => .assertFail
      | some curr_state =>
        if curr_state = new_state then
          .alreadyNoOp
        else
          .requested (if new_state then NET_WM_STATE_ADD else NET_WM_STATE_REMOVE)

end X11Window

/-- Flag bits of `XSizeHints::flags` (from `X11/Xutil.h`). -/
def PSize : Int := 8

/-- The `PMinSize` flag bit. -/
def PMinSize : Int := 16

/-- The `PMaxSize` flag bit. -/
def PMaxSize : Int := 32

/-- The `PResizeInc` flag bit. -/
def PResizeInc : Int := 64

/-- The `PBaseSize` flag bit. -/
def PBaseSize : Int := 256

/-- The `PWinGravity` flag bit. -/
def PWinGravity : Int := 512

/-- The fields of the `XSizeHints` structure that `x11_window.cpp`
reads or writes (`size_hints`). -/
structure XSizeHints where
  flags      : Int
  min_width  : Int
  min_height : Int
  max_width  : Int
  max_height : Int
  width_inc  : Int
  height_inc : Int
  base_width : Int
  base_height : Int
deriving DecidableEq, Repr

namespace X11Window

/-- Value `constexpr int _ResizeMinimumSize_ = 8` of `x11_window.cpp`. -/
def ResizeMinimumSize : Int := 8

/-- Value `constexpr int _ResizeMaximumSize_ = 32768` of `x11_window.cpp`. -/
def ResizeMaximumSize : Int := 32768

/-- C truncation of a real value to `int`, used for the
`float`-to-`int` conversions in `Size(float(w) * pixel_ratio, ...)`.
The pixel ratio is modelled as a rational; C++ truncates toward zero. -/
def cTrunc (q : ℚ) : Int :=
  q.num.tdiv q.den

/-- The sizing outcome of `X11Window::create`: the native pixel size handed
to `XCreateWindow` (also cached into `last_size`) and the cached
`minimum_size` / `maximum_size` bounds. -/
structure CreateSizing where
  window_size  : Size
  minimum_size : Size
  maximum_size : Size
deriving DecidableEq, Repr

/-- Embeds the sizing fragment of `X11Window::create` (lines 176-236 of
`x11_window.cpp`): the native size is the described logical size times the
pixel ratio, each component clamped from below by `_ResizeMinimumSize_`;
when the description disallows resizing, both cached bounds are set to the
clamped window size, otherwise to the global minimum/maximum clamp values. -/
def createSizing (desc_size : Size) (allow_resize : Bool)
    (pixel_ratio : ℚ) : CreateSizing :=
  let window_size : Size :=
    { width  := max ResizeMinimumSize (cTrunc ((desc_size.width : ℚ) * pixel_ratio))
      height := max ResizeMinimumSize (cTrunc ((desc_size.height : ℚ) * pixel_ratio)) }
  { window_size := window_size
    minimum_size :=
      if ¬ allow_resize then window_size
      else { width := ResizeMinimumSize, height := ResizeMinimumSize }
    maximum_size :=
      if ¬ allow_resize then window_size
      else { width := ResizeMaximumSize, height := ResizeMaximumSize } }

/-- The `XSizeHints` record `X11Window::create` pushes with
`xSetWMNormalHints` right after computing `minimum_size`/`maximum_size`
(lines 240-253): all of `PResizeInc | PBaseSize | PWinGravity | PMinSize |
PMaxSize` are set, the min/max fields carry the cached bounds and the base
size carries the window size. -/
def createSizeHints (s : CreateSizing) : XSizeHints :=
  { flags := PResizeInc + PBaseSize + PWinGravity + PMinSize + PMaxSize
    min_width := s.minimum_size.width
    min_height := s.minimum_size.height
    max_width := s.maximum_size.width
    max_height := s.maximum_size.height
    width_inc := 1
    height_inc := 1
    base_width := s.window_size.width
    base_height := s.window_size.height }

/-- The slice of `X11Window` state touched by `set_minimum_size` and
`set_maximum_size`: the cached client-area bounds and the `size_hints`
structure. -/
structure SizeBounds where
  minimum_size : Size
  maximum_size : Size
  size_hints   : XSizeHints
deriving DecidableEq, Repr

/-- Result of a size-hint setter: the new cached state and the `XSizeHints`
record pushed to the server by `xSetWMNormalHints`. -/
structure SizeHintsPush where
  state  : SizeBounds
  pushed : XSizeHints
deriving DecidableEq, Repr

/-- Embeds `X11Window::set_minimum_size(new_size)`.  `server_hints` is the
content `xGetWMNormalHints` fetches from the server into `size_hints` (the
source overwrites the cached structure with the server's copy before
editing it).  Note the source then assigns `maximum_size = new_size;` —
the *maximum* cache — while pushing the new minimum to the server. -/
def set_minimum_size (s : SizeBounds) (server_hints : XSizeHints)
    (new_size : Size) : SizeHintsPush :=
  let h : XSizeHints :=
    { server_hints with
        flags := PMinSize
        min_width := new_size.width
        min_height := new_size.height }
  { state := { s with size_hints := h, maximum_size := new_size }
    pushed := h }

/-- Embeds `X11Window::set_maximum_size(new_size)`: fetch the server's
hints, overwrite the flags with `PMaxSize` and the max fields with the new
size, push, and cache `maximum_size = new_size`. -/
def set_maximum_size (s : SizeBounds) (server_hints : XSizeHints)
    (new_size : Size) : SizeHintsPush :=
  let h : XSizeHints :=
    { server_hints with
        flags := PMaxSize
        max_width := new_size.width
        max_height := new_size.height }
  { state := { s with size_hints := h, maximum_size := new_size }
    pushed := h }

end X11Window

/-- Lifecycle callbacks of the `DisplayWindowSite` event sink fired by
`X11Window::process_event`. -/
inductive Sig where
  | sig_window_minimized
  | sig_window_restored
  | sig_paint
  | sig_window_moved
deriving DecidableEq, Repr

/-- The slice of `X11Window` state needed by `set_position`, `hide` and the
event-translation paths under verification.  `mapped` models the live
answer of `xGetWindowAttributes().map_state != IsUnmapped` (the source
queries the server; it keeps no cached copy).  `site` models whether the
`DisplayWindowSite*` pointer is non-null, and `has_frame_extents_atom`
models `atoms.exists("_NET_FRAME_EXTENTS")`. -/
structure WindowState where
  window_id : Nat
  mapped : Bool
  enabled : Bool
  site : Bool
  external_minimize : Bool
  compensate_frame_extents_on_MapNotify : Bool
  frame_extents : FrameExtents
  last_position : Point
  client_window_position : Point
  has_frame_extents_atom : Bool
  fn_on_click : Option (Point → Bool)

namespace X11Window

/-- Outcome of `X11Window::set_position`. -/
inductive SetPositionResult where
  /-- The `throw Exception("Window is unmapped.")` that is commented out in
  the source (`x11_window.cpp` line 695); kept in the model so the error
  contract of the spec is expressible.  The embedding never produces it. -/
  | stateError
  /-- The deprecated legacy path for unmapped windows: log a deprecation
  line, set `compensate_frame_extents_on_MapNotify`, store the requested
  position in `last_position` and return without a native move. -/
  | deferred (s : WindowState)
  /-- `XMoveWindow` was issued at `native_pos`; the cached state is
  unchanged (the position cache is updated later by `ConfigureNotify`). -/
  | moved (s : WindowState) (native_pos : Point)

/-- Embeds `X11Window::set_position(new_pos, of_client_area)`
(`x11_window.cpp` lines 692-739). -/
def set_position (s : WindowState) (new_pos : Point) (of_client_area : Bool) :
    SetPositionResult :=
  if ¬ s.mapped then
    .deferred { s with
        compensate_frame_extents_on_MapNotify := true
        last_position := new_pos }
  else
    let p : Point :=
      if of_client_area then
        { x := new_pos.x - s.frame_extents.left
          y := new_pos.y - s.frame_extents.top }
      else new_pos
    .moved s p

/-- Embeds `X11Window::set_enabled` (only the event-mask choice is
observable in this model). -/
def set_enabled (s : WindowState) (new_state : Bool) : WindowState :=
  { s with enabled := new_state }

/-- Embeds `X11Window::hide`: `set_enabled(false)` followed by
`XWithdrawWindow`, which unmaps the window on the server (and makes the
server deliver an `UnmapNotify` for it). -/
def hide (s : WindowState) : WindowState :=
  { set_enabled s false with mapped := false }

/-- The raw X events translated by the embedded `X11Window::process_event`
cases under verification.  Button press and release share one source case,
as do key press and release. -/
inductive XEv where
  | keyEvent
  | buttonEvent (pos : Point)
  | motionEvent (pos : Point)
  | exposeEvent (count : Nat)
  | mapNotify (window : Nat)
  | unmapNotify (window : Nat)
deriving Repr

/-- Observable outcome of one `X11Window::process_event` call: the new
window state, the lifecycle callbacks fired on the site (in order), the
event position forwarded to the capture window's mouse adapter (if any),
and the native `XMoveWindow` positions issued (by the deferred-positioning
branch of `MapNotify`). -/
structure ProcessEventResult where
  state : WindowState
  sigs : List Sig
  mouse_forward : Option Point
  native_moves : List Point

/-- Embeds `X11Window::process_event(event, mouse_capture_window)` for the
event categories under verification (`x11_window.cpp` lines 1109-1507).
`captureIsSelf` models `mouse_capture_window == this` and
`capture_client_position` the capture window's `client_window_position`;
`frameExtentsProp` is the server's `_NET_FRAME_EXTENTS` property value read
by `refresh_frame_extents` (`none` when the property fetch fails, which
leaves the cached extents unchanged).  The single-argument
`set_position(last_position)` call in the `MapNotify` branch is resolved
with `of_client_area = false`, the frame-coordinate interpretation
documented in `x11_window.h`. -/
def process_event (s : WindowState) (captureIsSelf : Bool)
    (capture_client_position : Point) (frameExtentsProp : Option FrameExtents)
    (e : XEv) : ProcessEventResult :=
  match e with
  | .keyEvent =>
    -- Forwarded verbatim to the keyboard input adapter; no window state
    -- or site observable in this model.
    ⟨s, [], none, []⟩
  | .buttonEvent pos =>
    -- Click-mask veto first, then capture rebasing, then forward to the
    -- capture window's mouse adapter.
    let vetoed : Bool :=
      match s.fn_on_click with
      | some f => ! f pos
      | none => false
    if vetoed then ⟨s, [], none, []⟩
    else
      let p :=
        if captureIsSelf then pos
        else
          { x := pos.x + s.client_window_position.x - capture_client_position.x
            y := pos.y + s.client_window_position.y - capture_client_position.y }
      ⟨s, [], some p, []⟩
  | .motionEvent pos =>
    -- Same rebasing as button events, without the click-mask check.
    let p :=
      if captureIsSelf then pos
      else
        { x := pos.x + s.client_window_position.x - capture_client_position.x
          y := pos.y + s.client_window_position.y - capture_client_position.y }
    ⟨s, [], some p, []⟩
  | .exposeEvent count =>
    if count = 0 ∧ s.site then ⟨s, [.sig_paint], none, []⟩
    else ⟨s, [], none, []⟩
  | .mapNotify w =>
    if w ≠ s.window_id then ⟨s, [], none, []⟩
    else
      let (s2, moves) :=
        if s.compensate_frame_extents_on_MapNotify then
          let s1 :=
            if s.has_frame_extents_atom then
              let fe :=
                match frameExtentsProp with
                | some fe => fe
                | none => s.frame_extents
              { s with
                  frame_extents := fe
                  last_position :=
                    { x := s.last_position.x - fe.left
                      y := s.last_position.y - fe.top } }
            else s
          let (s1', moves) :=
            match set_position s1 s1.last_position false with
            | .stateError => (s1, [])
            | .deferred s' => (s', [])
            | .moved s' p => (s', [p])
          ({ s1' with compensate_frame_extents_on_MapNotify := false }, moves)
        else (s, ([] : List Point))
      if s2.site ∧ s2.external_minimize then
        ⟨{ s2 with external_minimize := false }, [.sig_window_restored], none, moves⟩
      else
        ⟨s2, [], none, moves⟩
  | .unmapNotify w =>
    if w ≠ s.window_id then ⟨s, [], none, []⟩
    else
      ⟨{ s with external_minimize := true },
        if s.site then [.sig_window_minimized] else [], none, []⟩

/-- Scenario used against the externally-minimized claim: the window hides
itself (`hide` withdraws it, so the server generates an `UnmapNotify` for
this very window), and the thread's dispatch loop then hands that
self-caused `UnmapNotify` to `process_event`. -/
def hideThenProcessUnmap (s : WindowState) : ProcessEventResult :=
  let s1 := hide s
  process_event s1 true { x := 0, y := 0 } none (.unmapNotify s1.window_id)

end X11Window

/-- Native window identifier (`::Window`); windows in the registry are
represented by their id, the key `process_message` matches events on. -/
abbrev WinId := Nat

/-- One pending X event on the display connection, as seen by
`DisplayMessageQueue_X11::process_message`: its target window
(`event.xany.window`) plus an abstract payload distinguishing events. -/
structure QEvent where
  target : WinId
  payload : Nat
deriving DecidableEq, Repr

namespace DisplayMessageQueue_X11

/-- The `DisplayMessageQueue_X11::ThreadData` registry: the live list
(`windows`), the newborn list (`windows_born`) and the dead list
(`windows_died`). -/
structure ThreadData where
  windows : List WinId
  windows_born : List WinId
  windows_died : List WinId
deriving DecidableEq, Repr

/-- Embeds `DisplayMessageQueue_X11::add_client`: append to `windows_born`. -/
def add_client (d : ThreadData) (w : WinId) : ThreadData :=
  { d with windows_born := d.windows_born ++ [w] }

/-- Embeds `DisplayMessageQueue_X11::remove_client`: append to
`windows_died`. -/
def remove_client (d : ThreadData) (w : WinId) : ThreadData :=
  { d with windows_died := d.windows_died ++ [w] }

/-- The contents of a `std::vector` after `std::remove(begin(), end(), v)`
when the returned iterator is discarded, as `process_message` does: the
algorithm shifts the kept elements to the front and leaves the tail
positions (never written to) at their old values; the vector's size does
not change because `erase` is never called. -/
def stdRemove (l : List WinId) (v : WinId) : List WinId :=
  let kept := l.filter (fun x => x ≠ v)
  kept ++ l.drop kept.length

/-- Result of one `process_message` drain pass: the updated registry, the
events still pending on the connection, and the events handed to
`X11Window::process_event` (in delivery order). -/
structure DrainResult where
  data : ThreadData
  queue : List QEvent
  delivered : List QEvent
deriving DecidableEq, Repr

/-- The event-drain loop of `DisplayMessageQueue_X11::process_message`
(`while (XPending(display) > 0)`): pop the next event; discard it if its
target is in `windows_died`; if its target is in `windows_born`, push it
back (`XPutBackEvent` re-queues it at the front) and end the loop; if the
target is found in `windows`, call `process_event` on it (recorded in the
accumulator); otherwise drop it.  Returns the remaining queue and the
delivered events in reverse accumulation order. -/
def drainEvents (d : ThreadData) :
    List QEvent → List QEvent → List QEvent × List QEvent
  | [], acc => ([], acc.reverse)
  | e :: rest, acc =>
    if d.windows_died.contains e.target then
      drainEvents d rest acc
    else if d.windows_born.contains e.target then
      (e :: rest, acc.reverse)
    else if d.windows.contains e.target then
      drainEvents d rest (e :: acc)
    else
      drainEvents d rest acc

/-- Embeds `DisplayMessageQueue_X11::process_message` (`lines 188-248`):
drain pending events, then do the registry housekeeping.  The source's
"Remove dead windows" step calls `std::remove` on `windows` for each dead
entry but discards the returned iterator and never erases, so only the
in-place permutation `stdRemove` is applied; `windows_died` is then
cleared, and the newborn windows are appended to `windows` and
`windows_born` cleared. -/
def process_message (d : ThreadData) (queue : List QEvent) : DrainResult :=
  let (q, delivered) := drainEvents d queue []
  let ws := d.windows_died.foldl stdRemove d.windows
  { data :=
      { windows := ws ++ d.windows_born
        windows_born := []
        windows_died := [] }
    queue := q
    delivered := delivered }

/-- The result of the `select` call inside `DisplayMessageQueue_X11::process`
for one loop iteration: which of the three descriptors are readable.
`select` returns a positive count exactly when at least one flag is set;
an all-false record models `select` returning `0` (timeout elapsed with
nothing pending, which with a zero timeout is an empty poll). -/
structure SelectOutcome where
  async_ready : Bool
  exit_ready : Bool
  x11_ready : Bool
deriving DecidableEq, Repr

/-- The wait bound (in milliseconds) that `process(timeout_ms)` hands to
`select` on an iteration that starts at `time_now` when the call began at
`time_start` (`display_message_queue_x11.cpp` lines 139-152): the
remaining budget if positive, else a zero `timeval`. -/
def selectWaitBound (timeout_ms time_start time_now : Int) : Int :=
  let time_remaining_ms := timeout_ms - (time_now - time_start)
  if time_remaining_ms > 0 then time_remaining_ms else 0

/-- The control flow of the `while (true)` loop in
`DisplayMessageQueue_X11::process`, driven by the sequence of `select`
outcomes: if some descriptor is ready, handle async work first, return
`false` once the exit descriptor fired, and otherwise (data on the X
connection) loop; if `select` reports nothing ready, break out and return
`true`.  An exhausted outcome list is a `select` that timed out. -/
def processLoop : List SelectOutcome → Bool
  | [] => true
  | o :: rest =>
    if o.async_ready || o.exit_ready || o.x11_ready then
      if o.exit_ready then false else processLoop rest
    else
      true

/-- Embeds the return value of `DisplayMessageQueue_X11::process(timeout_ms)`
as a function of the observed `select` outcomes.  The timeout only shapes
the per-iteration wait bound (`selectWaitBound`), never the branch
structure, so it is not a parameter here. -/
def process (outcomes : List SelectOutcome) : Bool :=
  processLoop outcomes

/-- Embeds `DisplayMessageQueue_X11::run`: a single `process(-1)` call. -/
def run (outcomes : List SelectOutcome) : Bool :=
  process outcomes

/-- Whether the exit descriptor ever fires in a sequence of `select`
outcomes. -/
def hasExit (outcomes : List SelectOutcome) : Bool :=
  outcomes.any (fun o => o.exit_ready)

/-- Embeds `DisplayMessageQueue_X11::set_mouse_capture`: setting installs
the window as the capture holder; clearing only succeeds if the given
window currently holds the capture. -/
def set_mouse_capture (current : Option WinId) (w : WinId) (state : Bool) :
    Option WinId :=
  if state then some w
  else if current = some w then none
  else current

end DisplayMessageQueue_X11

/-- A populated atom cache in which every name of the fixed list was
successfully interned (each with a distinct non-`None` atom value, its
position in the list plus one) and the window manager advertises the
EWMH state atoms.  With this numbering `_NET_WM_STATE_HIDDEN = 17`,
`_NET_WM_STATE_FULLSCREEN = 18`, `_NET_WM_STATE_MAXIMIZED_HORZ = 19` and
`_NET_WM_STATE_MAXIMIZED_VERT = 20`. -/
def sampleAtoms : X11Atoms :=
  { map := fixedAtomList.enum.map (fun p => (p.2, p.1 + 1))
    net := [._NET_WM_STATE, ._NET_WM_STATE_FULLSCREEN] }

/-- A populated atom cache on a window manager that does not provide
`_NET_WM_STATE`: the name was interned with `only_if_exists = True` and
came back as the `None` atom. -/
def noStateAtoms : X11Atoms :=
  { map := fixedAtomList.map (fun n => (n, if n = ._NET_WM_STATE then 0 else 1))
    net := [] }

/-- A concrete unmapped window, used to exercise `set_position` while
`xGetWindowAttributes().map_state == IsUnmapped`. -/
def unmappedWin : WindowState :=
  { window_id := 5
    mapped := false
    enabled := true
    site := true
    external_minimize := false
    compensate_frame_extents_on_MapNotify := false
    frame_extents := { left := 4, right := 4, top := 20, bottom := 4 }
    last_position := { x := 0, y := 0 }
    client_window_position := { x := 0, y := 0 }
    has_frame_extents_atom := true
    fn_on_click := none }

/-- A concrete mapped window B whose client area starts at screen position
(50, 50), with no click mask installed. -/
def windowB : WindowState :=
  { unmappedWin with
      window_id := 6
      mapped := true
      client_window_position := { x := 50, y := 50 } }

/-- A concrete `set_minimum_size`/`set_maximum_size` starting state: the
bounds a freshly created resizable window carries
(`minimum_size = (8,8)`, `maximum_size = (32768,32768)`). -/
def freshSizeBounds : X11Window.SizeBounds :=
  { minimum_size := { width := 8, height := 8 }
    maximum_size := { width := 32768, height := 32768 }
    size_hints :=
      { flags := 880, min_width := 8, min_height := 8
        max_width := 32768, max_height := 32768
        width_inc := 1, height_inc := 1
        base_width := 400, base_height := 300 } }

/-- The behaviour §4.1 of the spec ascribes to
`read_state_flags(window, candidate_names)`, written from the spec's words
for comparison with the source embedding `X11Atoms.check_net_wm_state`:
an empty sequence when the state property is unavailable or unreadable,
otherwise one boolean per candidate, in order, `false` for a candidate
whose atom is not interned and otherwise membership of the atom in the
property value. -/
def read_state_flags_spec (t : X11Atoms) (netWmStateProp : Option (List Atom))
    (candidate_names : List AtomName) : List Bool :=
  if t.atomExists ._NET_WM_STATE = false ∨ netWmStateProp = none then []
  else
    candidate_names.map (fun c =>
      t.atomExists c && (netWmStateProp.getD []).contains ((t.opIndex c).getD 0))

namespace DisplayMessageQueue_X11

/-- The drain loop only ever appends to the delivered-events accumulator:
whatever it returns extends the reversed accumulator it was started with. -/
theorem drainEvents_delivered_append (d : ThreadData) :
    ∀ (q acc : List QEvent),
      ∃ tail, (drainEvents d q acc).2 = acc.reverse ++ tail := by
  intro q
  induction q with
  | nil =>
    intro acc
    exact ⟨[], by simp [drainEvents]⟩
  | cons e rest ih =>
    intro acc
    by_cases h1 : e.target ∈ d.windows_died
    · simpa [drainEvents, h1] using ih acc
    · by_cases h2 : e.target ∈ d.windows_born
      · exact ⟨[], by simp [drainEvents, h1, h2]⟩
      · by_cases h3 : e.target ∈ d.windows
        · obtain ⟨t1, ht1⟩ := ih (e :: acc)
          exact ⟨e :: t1, by simp [drainEvents, h1, h2, h3, ht1]⟩
        · simpa [drainEvents, h1, h2, h3] using ih acc

end DisplayMessageQueue_X11

namespace Claims

open DisplayMessageQueue_X11
open X11Window

/-- C1: the registry partition claim fails on the code: `process_message`'s
housekeeping step runs `std::remove(windows.begin(), windows.end(), elem)`
for each dead window but discards the returned iterator and never calls
`erase`, so a window appended to the dying set is still a member of the
live list after the housekeeping step at the end of the drain pass.
Concretely: a window with id 1 is registered (`add_client`), promoted to
the live list by one drain pass, then deregistered (`remove_client`); after
the next drain pass's housekeeping the live list still equals `[1]`. -/
theorem c1_dead_window_stays_live :
    (process_message
        (remove_client
          (process_message (add_client ⟨[], [], []⟩ 1) []).data 1)
        []).data.windows = [1] ∧
    (process_message
        (remove_client
          (process_message (add_client ⟨[], [], []⟩ 1) []).data 1)
        []).data.windows.contains 1 = true := by
  decide

/-- C2 counterexample: `run()` does not keep dispatching until the exit
signal is raised.  `run()` is a single `process(-1)` call, and a negative
timeout makes every `select` wait bound zero (an empty poll), so on a trace
whose one `select` reports nothing ready — and in which the exit signal
never fires — `run` returns (with value `true`). -/
theorem c2_run_returns_without_exit :
    run [⟨false, false, false⟩] = true ∧
    hasExit [⟨false, false, false⟩] = false ∧
    selectWaitBound (-1) 0 0 = 0 := by
  decide

end Claims

namespace DisplayMessageQueue_X11

/-- Characterization of the loop in `process` returning `false`: the exit
descriptor fires on some iteration, and every earlier `select` reported a
non-exit descriptor (async work or X data) ready. -/
theorem processLoop_false_char (outcomes : List SelectOutcome) :
    processLoop outcomes = false ↔
      ∃ pre o post, outcomes = pre ++ o :: post ∧ o.exit_ready = true ∧
        ∀ x ∈ pre, x.exit_ready = false ∧
          (x.async_ready || x.x11_ready) = true := by
  induction outcomes with
  | nil =>
    constructor
    · intro h
      simp [processLoop] at h
    · rintro ⟨pre, o, post, h, -, -⟩
      cases pre <;> simp at h
  | cons o rest ih =>
    by_cases hE : o.exit_ready = true
    · constructor
      · intro _
        exact ⟨[], o, rest, rfl, hE, by simp⟩
      · intro _
        simp [processLoop, hE]
    · have hE' : o.exit_ready = false := by
        cases h : o.exit_ready
        · rfl
        · exact absurd h hE
      by_cases hR : (o.async_ready || o.x11_ready) = true
      · have hstep : processLoop (o :: rest) = processLoop rest := by
          rcases Bool.or_eq_true_iff.mp hR with h | h <;>
            simp [processLoop, h, hE']
        rw [hstep, ih]
        constructor
        · rintro ⟨pre, o', post, hsp, hex, hpre⟩
          refine ⟨o :: pre, o', post, by rw [hsp]; rfl, hex, ?_⟩
          intro x hx
          rcases List.mem_cons.mp hx with rfl | hx
          · exact ⟨hE', hR⟩
          · exact hpre x hx
        · rintro ⟨pre, o', post, hsp, hex, hpre⟩
          cases pre with
          | nil =>
            rw [List.nil_append] at hsp
            obtain ⟨rfl, rfl⟩ := List.cons_eq_cons.mp hsp
            exact absurd hex hE
          | cons p pre' =>
            rw [List.cons_append] at hsp
            obtain ⟨rfl, hsp'⟩ := List.cons_eq_cons.mp hsp
            exact ⟨pre', o', post, hsp', hex,
              fun x hx => hpre x (List.mem_cons_of_mem _ hx)⟩
      · have hA : o.async_ready = false := by
          cases h : o.async_ready
          · rfl
          · exact absurd (by rw [Bool.or_eq_true_iff]; exact Or.inl h) hR
        have hX : o.x11_ready = false := by
          cases h : o.x11_ready
          · rfl
          · exact absurd (by rw [Bool.or_eq_true_iff]; exact Or.inr h) hR
        have hstep : processLoop (o :: rest) = true := by
          simp [processLoop, hA, hX, hE']
        rw [hstep]
        constructor
        · intro h
          exact absurd h (by simp)
        · rintro ⟨pre, o', post, hsp, hex, hpre⟩
          cases pre with
          | nil =>
            rw [List.nil_append] at hsp
            obtain ⟨rfl, rfl⟩ := List.cons_eq_cons.mp hsp
            exact absurd hex hE
          | cons p pre' =>
            rw [List.cons_append] at hsp
            obtain ⟨rfl, -⟩ := List.cons_eq_cons.mp hsp
            have h2 := hpre o (by simp)
            rw [hA, hX] at h2
            exact absurd h2.2 (by simp)

end DisplayMessageQueue_X11

namespace X11Atoms

/-- When every candidate name is present in the atom map, the per-candidate
loop of `check_net_wm_state` never hits the `operator[]` assertion and
produces one boolean per candidate: `false` for a candidate whose atom is
the `None` atom, membership in the property value otherwise. -/
theorem mapM_lookup_eq (t : X11Atoms) (items : List Atom) :
    ∀ cands : List AtomName, (∀ c ∈ cands, (t.opIndex c).isSome = true) →
      (cands.mapM (fun elem =>
        match t.opIndex elem with
        | none => none
        | some state =>
          some (if state = 0 then false else items.contains state))) =
      some (cands.map (fun c =>
        t.atomExists c && items.contains ((t.opIndex c).getD 0))) := by
  intro cands
  induction cands with
  | nil =>
    intro _
    rfl
  | cons c cs ih =>
    intro h
    obtain ⟨st, hst⟩ := Option.isSome_iff_exists.mp (h c (by simp))
    have hcs := ih (fun x hx => h x (List.mem_cons_of_mem _ hx))
    simp only [List.mapM_cons, hst, hcs, List.map_cons]
    by_cases h0 : st = 0 <;>
      simp [h0, X11Atoms.atomExists, hst]

end X11Atoms

namespace Claims

open DisplayMessageQueue_X11
open X11Window

/-- C2 (amended): the wait bound `process(timeout_ms)` hands to `select` is
the remaining budget clamped at zero, so a negative timeout yields a
zero-timeout poll on every iteration (never an unbounded wait); and
`process` returns `false` exactly when the exit descriptor fires strictly
before the first `select` that reports nothing ready — on every earlier
iteration some non-exit descriptor (async-work or X data) was ready.
`run()` is a single such `process(-1)` call, so it returns `true` as soon
as an empty poll happens. -/
theorem c2_process_amended :
    (∀ timeout_ms time_start time_now : Int,
      timeout_ms < 0 → time_start ≤ time_now →
      selectWaitBound timeout_ms time_start time_now = 0) ∧
    (∀ outcomes : List SelectOutcome,
      process outcomes = false ↔
        ∃ pre o post, outcomes = pre ++ o :: post ∧ o.exit_ready = true ∧
          ∀ x ∈ pre, x.exit_ready = false ∧
            (x.async_ready || x.x11_ready) = true) := by
  constructor
  · intro t s n ht hsn
    simp only [selectWaitBound]
    have h : ¬ t - (n - s) > 0 := by omega
    simp [h]
  · intro outcomes
    exact processLoop_false_char outcomes

/-- C2 (amended) witness: the first conjunct applied at timeout `-1` with 7
milliseconds elapsed gives a zero `select` wait bound. -/
theorem c2_process_amended_witness :
    ((-1 : Int) < 0 ∧ (0 : Int) ≤ 7) ∧ selectWaitBound (-1) 0 7 = 0 :=
  ⟨⟨by decide, by decide⟩, c2_process_amended.1 (-1) 0 7 (by decide) (by decide)⟩

/-- C5: during a drain pass whose next pending event targets a window in
the born set (and not in the dying set), the event is not delivered in
that pass — the drain stops with the whole queue intact (the event was
pushed back by `XPutBackEvent`); the housekeeping step then promotes the
born windows into the live list, and the next pass delivers that event
first, to the now-live window. -/
theorem c5_deferred_newborn_delivery :
    ∀ (d : DisplayMessageQueue_X11.ThreadData) (e : QEvent)
      (rest : List QEvent),
      e.target ∈ d.windows_born →
      e.target ∉ d.windows_died →
      (process_message d (e :: rest)).delivered = [] ∧
      (process_message d (e :: rest)).queue = e :: rest ∧
      e.target ∈ (process_message d (e :: rest)).data.windows ∧
      (process_message (process_message d (e :: rest)).data
          (process_message d (e :: rest)).queue).delivered.head? = some e := by
  intro d e rest hborn hdied
  have hdrain : drainEvents d (e :: rest) [] = (e :: rest, []) := by
    simp [drainEvents, hborn, hdied]
  have hmem : e.target ∈ (process_message d (e :: rest)).data.windows := by
    simp only [process_message, hdrain]
    exact List.mem_append.mpr (Or.inr hborn)
  refine ⟨by simp [process_message, hdrain], by simp [process_message, hdrain],
    hmem, ?_⟩
  have hq : (process_message d (e :: rest)).queue = e :: rest := by
    simp [process_message, hdrain]
  rw [hq]
  -- Second pass: the registry after housekeeping has empty born and dying
  -- lists, and contains the target in the live list, so the event is
  -- delivered first.
  set d2 := (process_message d (e :: rest)).data with hd2
  have hborn2 : d2.windows_born = [] := by simp [hd2, process_message, hdrain]
  have hdied2 : d2.windows_died = [] := by simp [hd2, process_message, hdrain]
  have hmem2 : e.target ∈ d2.windows := hmem
  obtain ⟨tail, htail⟩ := drainEvents_delivered_append d2 rest [e]
  have hstep : drainEvents d2 (e :: rest) [] = drainEvents d2 rest [e] := by
    simp [drainEvents, hborn2, hdied2, hmem2]
  simp only [process_message, hstep, htail]
  rfl

/-- C5 witness: a freshly registered window with id 7 (born, not dying)
whose first event arrives before its promotion; the event survives the
first pass untouched and is the first event delivered by the second
pass. -/
theorem c5_deferred_newborn_delivery_witness :
    ((7 : WinId) ∈ (⟨[], [7], []⟩ : DisplayMessageQueue_X11.ThreadData).windows_born ∧
      (7 : WinId) ∉ (⟨[], [7], []⟩ : DisplayMessageQueue_X11.ThreadData).windows_died) ∧
    ((process_message ⟨[], [7], []⟩ [⟨7, 0⟩, ⟨9, 1⟩]).delivered = [] ∧
      (process_message ⟨[], [7], []⟩ [⟨7, 0⟩, ⟨9, 1⟩]).queue = [⟨7, 0⟩, ⟨9, 1⟩] ∧
      (7 : WinId) ∈ (process_message ⟨[], [7], []⟩ [⟨7, 0⟩, ⟨9, 1⟩]).data.windows ∧
      (process_message (process_message ⟨[], [7], []⟩ [⟨7, 0⟩, ⟨9, 1⟩]).data
          (process_message ⟨[], [7], []⟩ [⟨7, 0⟩, ⟨9, 1⟩]).queue).delivered.head?
        = some ⟨7, 0⟩) :=
  ⟨⟨by decide, by decide⟩,
    c5_deferred_newborn_delivery ⟨[], [7], []⟩ ⟨7, 0⟩ [⟨9, 1⟩]
      (by decide) (by decide)⟩

/-- C3 counterexample: `set_position` on an unmapped window does not fail
with a StateError.  The `throw Exception("Window is unmapped.")` is
commented out in the source, so on a concrete unmapped window — with
nothing marking the call as coming from the legacy `present_popup` path —
the call takes the deferred branch instead of raising the lifecycle
error. -/
theorem c3_unmapped_no_state_error :
    set_position unmappedWin ⟨10, 20⟩ true ≠ .stateError ∧
    set_position unmappedWin ⟨10, 20⟩ true =
      .deferred { unmappedWin with
        compensate_frame_extents_on_MapNotify := true
        last_position := ⟨10, 20⟩ } := by
  constructor
  · intro h
    simp [set_position, unmappedWin] at h
  · rfl

/-- C3 (amended): `set_position` never produces the StateError outcome; on
any unmapped window it unconditionally takes the deprecated legacy path —
it sets the frame-extent-compensation flag, stores the requested position
in `last_position`, and issues no native move (the move is re-issued from
the `MapNotify` handler once the window is mapped); on a mapped window it
issues the native move (frame-extent adjusted when the position is of the
client area) without touching the cached position. -/
theorem c3_set_position_amended :
    (∀ (s : WindowState) (p : Point) (b : Bool),
      set_position s p b ≠ .stateError) ∧
    (∀ (s : WindowState) (p : Point) (b : Bool),
      set_position { s with mapped := false } p b =
        .deferred { s with
          mapped := false
          compensate_frame_extents_on_MapNotify := true
          last_position := p }) ∧
    (∀ (s : WindowState) (p : Point),
      set_position { s with mapped := true } p false =
        .moved { s with mapped := true } p) := by
  refine ⟨?_, ?_, ?_⟩
  · intro s p b h
    by_cases hm : s.mapped = true <;> simp [set_position, hm] at h
  · intro s p b
    simp [set_position]
  · intro s p
    simp [set_position]

/-- C6: capture rebasing.  A button event at raw position (5, 5) on window
B (client origin (50, 50)) while another window A (client origin (10, 10))
holds mouse capture is forwarded to A's mouse adapter at
(5 + 50 − 10, 5 + 50 − 10) = (45, 45); in general, when the capture holder
is the target window itself, the position is forwarded unchanged, and when
it is another window the position is shifted by the difference of the two
client-area origins. -/
theorem c6_capture_rebasing :
    ((process_event windowB false ⟨10, 10⟩ none (.buttonEvent ⟨5, 5⟩)).mouse_forward
      = some ⟨45, 45⟩) ∧
    (∀ (s : WindowState) (pos cpos : Point) (fe : Option FrameExtents),
      (process_event { s with fn_on_click := none } true cpos fe
          (.buttonEvent pos)).mouse_forward = some pos) ∧
    (∀ (s : WindowState) (pos cpos : Point) (fe : Option FrameExtents),
      (process_event { s with fn_on_click := none } false cpos fe
          (.buttonEvent pos)).mouse_forward =
        some ⟨pos.x + s.client_window_position.x - cpos.x,
              pos.y + s.client_window_position.y - cpos.y⟩) := by
  refine ⟨by rfl, ?_, ?_⟩
  · intro s pos cpos fe
    simp [process_event]
  · intro s pos cpos fe
    simp [process_event]

/-- C9 counterexample: an unmapped notification caused by the window's own
`hide()` still sets the externally-minimized flag and fires the
minimized-lifecycle callback.  `hide()` withdraws the window, which makes
the server send an `UnmapNotify` for it; `process_event` handles every
self-targeted `UnmapNotify` identically — the source has no mechanism to
tell a self-caused unmap from a window-manager-initiated one. -/
theorem c9_hide_still_fires_minimized :
    (hideThenProcessUnmap windowB).state.external_minimize = true ∧
    (hideThenProcessUnmap windowB).sigs = [.sig_window_minimized] := by
  exact ⟨rfl, rfl⟩

/-- C9 (amended): an incoming `UnmapNotify` for this window unconditionally
sets the externally-minimized flag — whether or not the unmap was caused
by the window's own `hide()` — and fires the minimized callback exactly
when a site is attached; the matching `MapNotify` (outside the
frame-extent-compensation sub-state) fires the restored callback exactly
when a site is attached and the flag was set, clearing the flag in that
case and leaving it untouched otherwise. -/
theorem c9_unmap_map_amended :
    (∀ (s : WindowState) (cis : Bool) (cpos : Point)
        (fe : Option FrameExtents),
      (process_event s cis cpos fe (.unmapNotify s.window_id)).state.external_minimize
          = true ∧
      (process_event s cis cpos fe (.unmapNotify s.window_id)).sigs =
        (if s.site then [Sig.sig_window_minimized] else [])) ∧
    (∀ (s : WindowState) (cis : Bool) (cpos : Point)
        (fe : Option FrameExtents),
      (process_event
          { s with compensate_frame_extents_on_MapNotify := false }
          cis cpos fe (.mapNotify s.window_id)).sigs =
        (if s.site ∧ s.external_minimize then [Sig.sig_window_restored] else []) ∧
      (process_event
          { s with compensate_frame_extents_on_MapNotify := false }
          cis cpos fe (.mapNotify s.window_id)).state.external_minimize =
        (if s.site ∧ s.external_minimize then false else s.external_minimize)) := by
  constructor
  · intro s cis cpos fe
    constructor <;> simp [process_event]
  · intro s cis cpos fe
    by_cases hs : s.site = true <;> by_cases hm : s.external_minimize = true <;>
      simp [process_event, hs, hm]

/-- C4 counterexample: a candidate name that was never put in the atom map
(here an arbitrary name outside the fixed list, on a fully populated
cache) does not map to `false` — the `Atom state = (*this)[elem];` lookup
inside the loop hits the `assert(iter != _map_.end())` in
`X11Atoms::operator[]` (undefined behaviour under `NDEBUG`), modelled as
the `none` result, even though the state property itself was readable
(zero-length data). -/
theorem c4_unknown_candidate_asserts :
    sampleAtoms.check_net_wm_state (some []) [.other 0] = none ∧
    sampleAtoms.check_net_wm_state (some []) [.other 0] ≠ some [false] := by
  decide

/-- C4 (amended): provided every candidate name is present in the atom map
(as all names of the fixed interned list are), `check_net_wm_state`
returns exactly the sequence the spec describes for `read_state_flags`:
empty when the `_NET_WM_STATE` atom is the `None` atom or the property
query fails, and otherwise one boolean per candidate in order — `false`
for a candidate whose atom is not interned (the `None` atom), membership
of the atom in the property's value list otherwise, tolerating zero-length
property data.  A candidate name absent from the map instead trips the
`operator[]` assertion (see the counterexample). -/
theorem c4_read_state_flags_amended :
    ∀ (t : X11Atoms) (prop : Option (List Atom)) (cands : List AtomName),
      (t.opIndex ._NET_WM_STATE).isSome = true →
      (∀ c ∈ cands, (t.opIndex c).isSome = true) →
      t.check_net_wm_state prop cands =
        some (read_state_flags_spec t prop cands) := by
  intro t prop cands hstate hcands
  obtain ⟨a, ha⟩ := Option.isSome_iff_exists.mp hstate
  by_cases h0 : a = 0
  · subst h0
    simp [X11Atoms.check_net_wm_state, read_state_flags_spec,
      X11Atoms.atomExists, ha]
  · match prop with
    | none =>
      simp [X11Atoms.check_net_wm_state, read_state_flags_spec,
        X11Atoms.atomExists, ha, h0]
    | some items =>
      have hmap := X11Atoms.mapM_lookup_eq t items cands hcands
      simp only [X11Atoms.check_net_wm_state, ha, if_neg h0]
      rw [hmap]
      simp [read_state_flags_spec, X11Atoms.atomExists, ha, h0]

/-- C4 (amended) witness: on the fully populated sample cache with the
server reporting `_NET_WM_STATE = [17]` (the hidden-state atom), querying
the hidden and fullscreen candidates yields exactly `[true, false]`. -/
theorem c4_read_state_flags_amended_witness :
    ((sampleAtoms.opIndex ._NET_WM_STATE).isSome = true ∧
      (∀ c ∈ [AtomName._NET_WM_STATE_HIDDEN, AtomName._NET_WM_STATE_FULLSCREEN],
        (sampleAtoms.opIndex c).isSome = true)) ∧
    sampleAtoms.check_net_wm_state (some [17])
        [._NET_WM_STATE_HIDDEN, ._NET_WM_STATE_FULLSCREEN] =
      some (read_state_flags_spec sampleAtoms (some [17])
        [._NET_WM_STATE_HIDDEN, ._NET_WM_STATE_FULLSCREEN]) :=
  ⟨⟨by decide, by decide⟩,
    c4_read_state_flags_amended sampleAtoms (some [17])
      [._NET_WM_STATE_HIDDEN, ._NET_WM_STATE_FULLSCREEN]
      (by decide) (by decide)⟩

/-- C7: `create` computes the native pixel size as the logical size times
the pixel ratio, clamps each component to a minimum of 8 physical pixels —
so a logical (2, 2) request at pixel ratio 1.0 yields native size
(8, 8) — and, when the description disallows resizing, pins both cached
bounds to the (clamped) window size, so a resize-disallowed (400, 300)
request yields `minimum_size = maximum_size = (400, 300)`. -/
theorem c7_create_size_clamp :
    ((createSizing ⟨2, 2⟩ true 1).window_size = ⟨8, 8⟩) ∧
    ((createSizing ⟨400, 300⟩ false 1).minimum_size = ⟨400, 300⟩ ∧
      (createSizing ⟨400, 300⟩ false 1).maximum_size = ⟨400, 300⟩ ∧
      (createSizing ⟨400, 300⟩ false 1).window_size = ⟨400, 300⟩) ∧
    (∀ (d : Size) (b : Bool) (r : ℚ),
      ResizeMinimumSize ≤ (createSizing d b r).window_size.width ∧
      ResizeMinimumSize ≤ (createSizing d b r).window_size.height) ∧
    (∀ (d : Size) (r : ℚ),
      (createSizing d false r).minimum_size = (createSizing d false r).window_size ∧
      (createSizing d false r).maximum_size = (createSizing d false r).window_size) := by
  refine ⟨?_, ?_, ?_, ?_⟩
  · simp [createSizing, cTrunc, ResizeMinimumSize]
  · refine ⟨?_, ?_, ?_⟩ <;> simp [createSizing, cTrunc, ResizeMinimumSize]
  · intro d b r
    exact ⟨le_max_left _ _, le_max_left _ _⟩
  · intro d r
    simp [createSizing]

/-- C8: the claim fails on `set_minimum_size`: the source pushes the new
minimum into the server size hints (`PMinSize`, `min_width`/`min_height`)
but then caches the new size into `maximum_size` instead of
`minimum_size` — a copy-paste slip contradicting the function's own name
and the hint fields it just set.  On the fresh bounds
`min = (8,8), max = (32768,32768)`, a `set_minimum_size((100,100))` call
leaves the cached minimum at (8, 8) and clobbers the cached maximum to
(100, 100), while `set_maximum_size((500,400))` behaves as the claim
states. -/
theorem c8_set_minimum_size_clobbers_maximum :
    ((set_minimum_size freshSizeBounds freshSizeBounds.size_hints
        ⟨100, 100⟩).state.minimum_size = ⟨8, 8⟩ ∧
      (set_minimum_size freshSizeBounds freshSizeBounds.size_hints
        ⟨100, 100⟩).state.maximum_size = ⟨100, 100⟩ ∧
      (set_minimum_size freshSizeBounds freshSizeBounds.size_hints
        ⟨100, 100⟩).pushed.flags = PMinSize ∧
      (set_minimum_size freshSizeBounds freshSizeBounds.size_hints
        ⟨100, 100⟩).pushed.min_width = 100 ∧
      (set_minimum_size freshSizeBounds freshSizeBounds.size_hints
        ⟨100, 100⟩).pushed.min_height = 100) ∧
    ((set_maximum_size freshSizeBounds freshSizeBounds.size_hints
        ⟨500, 400⟩).state.maximum_size = ⟨500, 400⟩ ∧
      (set_maximum_size freshSizeBounds freshSizeBounds.size_hints
        ⟨500, 400⟩).state.minimum_size = ⟨8, 8⟩ ∧
      (set_maximum_size freshSizeBounds freshSizeBounds.size_hints
        ⟨500, 400⟩).pushed.flags = PMaxSize) := by
  decide

/-- C10: the claim fails on the code: when `check_net_wm_state` returns the
empty vector, `is_maximized` reads `ret[0]`/`ret[1]` with no size check —
an out-of-bounds `std::vector` access — both when the window manager does
not provide `_NET_WM_STATE` and when the property read fails; and
`set_fullscreen`, on a window manager that advertises the state atoms but
whose property read fails, trips `assert(ret.size() != 0)` (out-of-bounds
`ret[0]` under `NDEBUG`) instead of degrading to a logged no-op. -/
theorem c10_state_queries_not_total :
    is_maximized noStateAtoms (some [1, 2, 3]) = none ∧
    is_maximized sampleAtoms none = none ∧
    set_fullscreen sampleAtoms none true = .assertFail := by
  decide

end Claims

end ClanX11
